import Mathlib

/-!
Verification of the error taxonomy and diagnostic reporting layer of the
dcmfx DICOM JSON conversion subsystem
(`src/rust/dcmfx_json/src/json_error.rs`).

The two error types `JsonSerializeError` and `JsonDeserializeError` and
their `to_lines` / `Display` renderings are embedded directly from the
source.  The collaborators from `dcmfx_core` (`DataSetPath`, the tag
dictionary, the leaf error types `DataError` / `P10Error`, and the
platform I/O error) are not part of the source tree under verification;
they are modelled from the specification, as marked on each definition.
-/

/-- Modelled from the spec: a tag is "a structured identifier for a data
element (group/element pair)". -/
structure DataElementTag where
  group : Nat
  element : Nat
deriving DecidableEq, Repr

/-- Uppercase hexadecimal digit for a value below 16. -/
def hexDigit (n : Nat) : Char :=
  if n < 10 then Char.ofNat (48 + n) else Char.ofNat (55 + n)

/-- Four-digit uppercase hexadecimal rendering of a 16-bit value. -/
def toHex4 (n : Nat) : String :=
  String.mk [hexDigit (n / 4096 % 16), hexDigit (n / 256 % 16),
             hexDigit (n / 16 % 16), hexDigit (n % 16)]

/-- Modelled from the spec: the display form of a tag, as in the spec's
Scenario B which renders the Study Date tag as `(0008,0020)`. -/
def DataElementTag.toDisplayString (t : DataElementTag) : String :=
  "(" ++ toHex4 t.group ++ "," ++ toHex4 t.element ++ ")"

/-- Modelled from the spec: a path segment "identifies either a top-level
position or a (sequence tag, item index) pair inside a nested structure";
the deepest segment may name a concrete data element. -/
inductive DataSetPathEntry where
  | dataElement (tag : DataElementTag)
  | sequenceItem (tag : DataElementTag) (index : Nat)
deriving DecidableEq, Repr

/-- Modelled from the spec: a Hierarchical Path is an "ordered sequence of
path segments", ordered from outermost to innermost. -/
structure DataSetPath where
  entries : List DataSetPathEntry
deriving DecidableEq, Repr

/-- Modelled from the spec: "an empty path means top level of the data
set"; emptiness of the segment sequence. -/
def DataSetPath.is_empty (p : DataSetPath) : Bool :=
  p.entries.isEmpty

/-- Modelled from the spec: `final_data_element()` "returns the tag of the
deepest segment if the path's last segment names a concrete data element;
fails when the path is empty or ends inside a pure structural/sequence
segment without a terminal element". -/
def DataSetPath.final_data_element (p : DataSetPath) :
    Except String DataElementTag :=
  match p.entries.getLast? with
  | some (.dataElement tag) => .ok tag
  | _ => .error "Path does not end with a data element"

/-- Display form of one path segment, used by the path renderings. -/
def DataSetPathEntry.toDisplayString : DataSetPathEntry → String
  | .dataElement tag => tag.toDisplayString
  | .sequenceItem tag index =>
      tag.toDisplayString ++ "[" ++ toString index ++ "]"

/-- Modelled from the spec: the path's default display "renders the path
as a single-line, human-readable locator string". -/
def DataSetPath.toDisplayString (p : DataSetPath) : String :=
  String.intercalate "/" (p.entries.map DataSetPathEntry.toDisplayString)

/-- Modelled from the spec: `to_detailed_string()` is the path's
single-line locator rendering; the spec describes it together with the
default display form. -/
def DataSetPath.to_detailed_string (p : DataSetPath) : String :=
  p.toDisplayString

/-- Modelled from the spec: the Tag Dictionary Lookup collaborator, "a
tag-to-name lookup function accepting a tag identifier and an optional
private-dictionary context and returning a display name (never fails,
returns a fallback name for unrecognized tags)"; the spec's Scenario B
names tag (0008,0020) "Study Date". -/
def dictionary.tag_name (tag : DataElementTag) (_pd : Option Unit) : String :=
  if tag = ⟨0x0008, 0x0020⟩ then "Study Date" else "Unknown"

/-- Modelled from the spec: the Structural Data Error leaf domain, "an
opaque leaf error value that already implements the Describable-Error
capability" (one operation, `to_lines`). -/
structure DataError where
  to_lines : String → List String

/-- Modelled from the spec: the Stream-Protocol Error leaf domain, "an
opaque leaf error value that already implements the Describable-Error
capability". -/
structure P10Error where
  to_lines : String → List String

/-- Modelled from the spec: the platform I/O failure value; the source
renders it through its own description (`std::io::Error`'s display). -/
structure IOError where
  message : String

/-- The serialize error union from `json_error.rs`: one variant per leaf
error domain. -/
inductive JsonSerializeError where
  | DataError (e : DataError)
  | P10Error (e : P10Error)
  | IOError (e : IOError)

/-- The deserialize error from `json_error.rs`: the single `JsonInvalid`
shape carrying free-text details and a data-set path. -/
structure JsonDeserializeError where
  details : String
  path : DataSetPath

/-- `JsonSerializeError::to_lines` from `json_error.rs`: the first two
variants delegate to the wrapped leaf error; the I/O variant synthesizes
its own three lines. -/
def JsonSerializeError.to_lines :
    JsonSerializeError → String → List String
  | .DataError e, task_description => e.to_lines task_description
  | .P10Error e, task_description => e.to_lines task_description
  | .IOError e, task_description =>
      ["DICOM JSON I/O error " ++ task_description,
       "",
       "  Error: " ++ e.message]

/-- `JsonDeserializeError::to_lines` from `json_error.rs`: summary, blank
and details lines, then tag/name lines when the path resolves to a final
data element, then a path line when the path is non-empty. -/
def JsonDeserializeError.to_lines (e : JsonDeserializeError)
    (task_description : String) : List String :=
  let lines := ["DICOM JSON deserialize error " ++ task_description,
                "",
                "  Details: " ++ e.details]
  let lines := match e.path.final_data_element with
    | .ok tag =>
        lines ++ ["  Tag: " ++ tag.toDisplayString,
                  "  Name: " ++ dictionary.tag_name tag none]
    | .error _ => lines
  let lines := if e.path.is_empty then lines
    else lines ++ ["  Path: " ++ e.path.toDisplayString]
  lines

/-- The `Display` implementation for `JsonDeserializeError` from
`json_error.rs`: a single-line rendering of the details and the path's
detailed string. -/
def JsonDeserializeError.toDisplayString (e : JsonDeserializeError) :
    String :=
  "DICOM JSON deserialize error, details: " ++ e.details ++
    ", path: " ++ e.path.to_detailed_string

/-! Helper lemmas: list-prefix reasoning and case normal forms for
`JsonDeserializeError.to_lines`. -/

/-- Taking the same number of elements preserves the prefix relation. -/
theorem take_pre_of_pre {p q : List Char} (n : Nat) (h : p <+: q) :
    p.take n <+: q.take n := by
  obtain ⟨r, rfl⟩ := h
  rw [List.take_append_eq_append_take]
  exact ⟨_, rfl⟩

/-- A list cannot be a prefix of `c ++ s` when its first `c.length`
elements already disagree with `c`. -/
theorem not_pre_of_append {p c : List Char} (s : List Char)
    (hne : ¬ p.take c.length <+: c) : ¬ p <+: c ++ s := by
  intro h
  have h2 := take_pre_of_pre c.length h
  rw [List.take_append_eq_append_take, Nat.sub_self, List.take_zero,
      List.append_nil, List.take_length] at h2
  exact hne h2

/-- String form of `not_pre_of_append`: a label is not a prefix of a line
built from a conflicting concrete head. -/
theorem not_pre_str {p c : String} (s : String)
    (hne : ¬ p.data.take c.data.length <+: c.data) :
    ¬ p.data <+: (c ++ s).data := by
  rw [String.data_append]
  exact not_pre_of_append _ hne

/-- A string is a prefix of itself followed by anything. -/
theorem pre_str (p s : String) : p.data <+: (p ++ s).data := by
  rw [String.data_append]
  exact ⟨_, rfl⟩

/-- An empty path has no final data element. -/
theorem empty_final_err (p : DataSetPath) (h : p.is_empty = true) :
    p.final_data_element =
      .error "Path does not end with a data element" := by
  unfold DataSetPath.is_empty at h
  unfold DataSetPath.final_data_element
  rw [List.isEmpty_iff.mp h]
  rfl

/-- A path with a final data element is non-empty. -/
theorem final_ok_nonempty (p : DataSetPath) (tag : DataElementTag)
    (h : p.final_data_element = .ok tag) : p.is_empty = false := by
  unfold DataSetPath.final_data_element at h
  unfold DataSetPath.is_empty
  cases hl : p.entries.getLast? with
  | none =>
    rw [hl] at h
    exact Except.noConfusion h
  | some entry =>
    have hne : p.entries ≠ [] := by
      intro hnil
      rw [hnil] at hl
      exact Option.noConfusion hl
    simp [List.isEmpty_iff, hne]

/-- Normal form of the deserialize report when the path has no final
element and is empty: three lines. -/
theorem to_lines_err_empty (e : JsonDeserializeError) (t err : String)
    (hfd : e.path.final_data_element = .error err)
    (he : e.path.is_empty = true) :
    e.to_lines t = ["DICOM JSON deserialize error " ++ t, "",
                    "  Details: " ++ e.details] := by
  unfold JsonDeserializeError.to_lines
  rw [hfd, he]
  simp

/-- Normal form of the deserialize report when the path has no final
element but is non-empty: four lines. -/
theorem to_lines_err_nonempty (e : JsonDeserializeError) (t err : String)
    (hfd : e.path.final_data_element = .error err)
    (he : e.path.is_empty = false) :
    e.to_lines t = ["DICOM JSON deserialize error " ++ t, "",
                    "  Details: " ++ e.details,
                    "  Path: " ++ e.path.toDisplayString] := by
  unfold JsonDeserializeError.to_lines
  rw [hfd, he]
  simp

/-- Normal form of the deserialize report when the path resolves to a
final element and is empty: five lines. -/
theorem to_lines_ok_empty (e : JsonDeserializeError) (t : String)
    (tag : DataElementTag)
    (hfd : e.path.final_data_element = .ok tag)
    (he : e.path.is_empty = true) :
    e.to_lines t = ["DICOM JSON deserialize error " ++ t, "",
                    "  Details: " ++ e.details,
                    "  Tag: " ++ tag.toDisplayString,
                    "  Name: " ++ dictionary.tag_name tag none] := by
  unfold JsonDeserializeError.to_lines
  rw [hfd, he]
  simp

/-- Normal form of the deserialize report when the path resolves to a
final element and is non-empty: six lines. -/
theorem to_lines_ok_nonempty (e : JsonDeserializeError) (t : String)
    (tag : DataElementTag)
    (hfd : e.path.final_data_element = .ok tag)
    (he : e.path.is_empty = false) :
    e.to_lines t = ["DICOM JSON deserialize error " ++ t, "",
                    "  Details: " ++ e.details,
                    "  Tag: " ++ tag.toDisplayString,
                    "  Name: " ++ dictionary.tag_name tag none,
                    "  Path: " ++ e.path.toDisplayString] := by
  unfold JsonDeserializeError.to_lines
  rw [hfd, he]
  simp

/-- The Describable-Error output convention: a non-empty line sequence
whose first line contains the task description verbatim. -/
def firstLineContains (lines : List String) (t : String) : Prop :=
  lines ≠ [] ∧ t.data <:+: (lines.headI).data

/-- The deserialize report always starts with its summary line. -/
theorem deserialize_head (e : JsonDeserializeError) (t : String) :
    ∃ rest, e.to_lines t =
      ("DICOM JSON deserialize error " ++ t) :: rest := by
  cases hfd : e.path.final_data_element with
  | ok tag =>
    exact ⟨_, to_lines_ok_nonempty e t tag hfd (final_ok_nonempty _ _ hfd)⟩
  | error err =>
    cases he : e.path.is_empty with
    | true => exact ⟨_, to_lines_err_empty e t err hfd he⟩
    | false => exact ⟨_, to_lines_err_nonempty e t err hfd he⟩

/-- C3: for the DataError and P10Error variants, `to_lines` is exactly the
wrapped leaf error's `to_lines`: no lines are added, removed or altered. -/
theorem serialize_delegates_to_leaf (d : DataError) (p : P10Error)
    (t : String) :
    (JsonSerializeError.DataError d).to_lines t = d.to_lines t ∧
    (JsonSerializeError.P10Error p).to_lines t = p.to_lines t :=
  ⟨rfl, rfl⟩

/-- C4: the IOError variant of `JsonSerializeError.to_lines` returns
exactly three lines: the summary embedding the task description, a blank
line, and the indented error detail line. -/
theorem serialize_io_three_lines (io : IOError) (t : String) :
    (JsonSerializeError.IOError io).to_lines t =
      ["DICOM JSON I/O error " ++ t, "", "  Error: " ++ io.message] ∧
    ((JsonSerializeError.IOError io).to_lines t).length = 3 :=
  ⟨rfl, rfl⟩

/-- C6: the single-line Display rendering of a deserialize error is
exactly the fixed sentence with the details and the path's detailed
string inserted verbatim, in that order. -/
theorem deserialize_display_single_line (e : JsonDeserializeError) :
    e.toDisplayString =
      "DICOM JSON deserialize error, details: " ++ e.details ++
        ", path: " ++ e.path.to_detailed_string :=
  rfl

/-- C8: `to_lines` is a pure function of the error value and the task
description: equal inputs give identical line sequences. -/
theorem to_lines_deterministic (s₁ s₂ : JsonSerializeError)
    (d₁ d₂ : JsonDeserializeError) (t₁ t₂ : String)
    (hs : s₁ = s₂) (hd : d₁ = d₂) (ht : t₁ = t₂) :
    s₁.to_lines t₁ = s₂.to_lines t₂ ∧ d₁.to_lines t₁ = d₂.to_lines t₂ := by
  subst hs
  subst hd
  subst ht
  exact ⟨rfl, rfl⟩

/-- C8 witness: determinism instantiated at a concrete I/O error. -/
theorem to_lines_deterministic_witness :
    (JsonSerializeError.IOError ⟨"disk full"⟩).to_lines "t" =
      (JsonSerializeError.IOError ⟨"disk full"⟩).to_lines "t" ∧
    (JsonDeserializeError.mk "bad" ⟨[]⟩).to_lines "t" =
      (JsonDeserializeError.mk "bad" ⟨[]⟩).to_lines "t" :=
  to_lines_deterministic _ _ _ _ _ _ rfl rfl rfl

/-- C10: with the empty task description the synthesized summary lines
are exactly the fixed phrases with a trailing space, and in general the
separator space is emitted unconditionally before the task phrase. -/
theorem summary_trailing_space :
    (∀ io : IOError, ∃ rest,
      (JsonSerializeError.IOError io).to_lines "" =
        "DICOM JSON I/O error " :: rest) ∧
    (∀ e : JsonDeserializeError, ∃ rest,
      e.to_lines "" = "DICOM JSON deserialize error " :: rest) ∧
    (∀ (io : IOError) (t : String), ∃ rest,
      (JsonSerializeError.IOError io).to_lines t =
        ("DICOM JSON I/O error " ++ t) :: rest) ∧
    (∀ (e : JsonDeserializeError) (t : String), ∃ rest,
      e.to_lines t = ("DICOM JSON deserialize error " ++ t) :: rest) := by
  refine ⟨fun io => ⟨_, rfl⟩, fun e => ?_, fun io t => ⟨_, rfl⟩,
    fun e t => deserialize_head e t⟩
  obtain ⟨rest, hrest⟩ := deserialize_head e ""
  exact ⟨rest, hrest⟩
/-- C1: the Tag and Name lines appear in the deserialize report exactly
when the path resolves to a final data element (and then carry that
element's tag and dictionary name), and the Path line appears exactly
when the path is non-empty; omitted lines are absent entirely. -/
theorem deserialize_conditional_lines (e : JsonDeserializeError)
    (t : String) :
    ((∃ l ∈ e.to_lines t, "  Tag: ".data <+: l.data) ↔
       ∃ tag, e.path.final_data_element = Except.ok tag) ∧
    ((∃ l ∈ e.to_lines t, "  Name: ".data <+: l.data) ↔
       ∃ tag, e.path.final_data_element = Except.ok tag) ∧
    ((∃ l ∈ e.to_lines t, "  Path: ".data <+: l.data) ↔
       e.path.is_empty = false) ∧
    (∀ tag, e.path.final_data_element = Except.ok tag →
       ("  Tag: " ++ tag.toDisplayString) ∈ e.to_lines t ∧
       ("  Name: " ++ dictionary.tag_name tag none) ∈ e.to_lines t) ∧
    (e.path.is_empty = false →
       ("  Path: " ++ e.path.toDisplayString) ∈ e.to_lines t) := by
  cases hfd : e.path.final_data_element with
  | ok tag =>
    have he := final_ok_nonempty _ _ hfd
    rw [to_lines_ok_nonempty e t tag hfd he, he]
    refine ⟨?_, ?_, ?_, ?_, ?_⟩
    · exact ⟨fun _ => ⟨tag, rfl⟩,
        fun _ => ⟨"  Tag: " ++ tag.toDisplayString, by simp, pre_str _ _⟩⟩
    · exact ⟨fun _ => ⟨tag, rfl⟩,
        fun _ => ⟨"  Name: " ++ dictionary.tag_name tag none, by simp,
          pre_str _ _⟩⟩
    · exact ⟨fun _ => rfl,
        fun _ => ⟨"  Path: " ++ e.path.toDisplayString, by simp,
          pre_str _ _⟩⟩
    · rintro tag' htag'
      injection htag' with h
      subst h
      exact ⟨by simp, by simp⟩
    · intro _
      simp
  | error err =>
    have hnotag : ∀ tag, ¬ (Except.error err (ε := String)
        (α := DataElementTag)) = Except.ok tag :=
      fun tag h => Except.noConfusion h
    cases he : e.path.is_empty with
    | true =>
      rw [to_lines_err_empty e t err hfd he]
      refine ⟨?_, ?_, ?_, ?_, ?_⟩
      · constructor
        · rintro ⟨l, hl, hp⟩
          simp only [List.mem_cons, List.not_mem_nil, or_false] at hl
          rcases hl with rfl | rfl | rfl
          · exact absurd hp (not_pre_str t (by decide))
          · exact absurd hp (by decide)
          · exact absurd hp (not_pre_str e.details (by decide))
        · rintro ⟨tag, htag⟩
          exact absurd htag (hnotag tag)
      · constructor
        · rintro ⟨l, hl, hp⟩
          simp only [List.mem_cons, List.not_mem_nil, or_false] at hl
          rcases hl with rfl | rfl | rfl
          · exact absurd hp (not_pre_str t (by decide))
          · exact absurd hp (by decide)
          · exact absurd hp (not_pre_str e.details (by decide))
        · rintro ⟨tag, htag⟩
          exact absurd htag (hnotag tag)
      · constructor
        · rintro ⟨l, hl, hp⟩
          simp only [List.mem_cons, List.not_mem_nil, or_false] at hl
          rcases hl with rfl | rfl | rfl
          · exact absurd hp (not_pre_str t (by decide))
          · exact absurd hp (by decide)
          · exact absurd hp (not_pre_str e.details (by decide))
        · intro h
          exact absurd h (by simp)
      · rintro tag htag
        exact absurd htag (hnotag tag)
      · intro h
        exact absurd h (by simp)
    | false =>
      rw [to_lines_err_nonempty e t err hfd he]
      refine ⟨?_, ?_, ?_, ?_, ?_⟩
      · constructor
        · rintro ⟨l, hl, hp⟩
          simp only [List.mem_cons, List.not_mem_nil, or_false] at hl
          rcases hl with rfl | rfl | rfl | rfl
          · exact absurd hp (not_pre_str t (by decide))
          · exact absurd hp (by decide)
          · exact absurd hp (not_pre_str e.details (by decide))
          · exact absurd hp (not_pre_str e.path.toDisplayString (by decide))
        · rintro ⟨tag, htag⟩
          exact absurd htag (hnotag tag)
      · constructor
        · rintro ⟨l, hl, hp⟩
          simp only [List.mem_cons, List.not_mem_nil, or_false] at hl
          rcases hl with rfl | rfl | rfl | rfl
          · exact absurd hp (not_pre_str t (by decide))
          · exact absurd hp (by decide)
          · exact absurd hp (not_pre_str e.details (by decide))
          · exact absurd hp (not_pre_str e.path.toDisplayString (by decide))
        · rintro ⟨tag, htag⟩
          exact absurd htag (hnotag tag)
      · exact ⟨fun _ => rfl,
          fun _ => ⟨"  Path: " ++ e.path.toDisplayString, by simp,
            pre_str _ _⟩⟩
      · rintro tag htag
        exact absurd htag (hnotag tag)
      · intro _
        simp

/-- C1 witness: the conditional-lines property instantiated at a
one-element resolving path. -/
theorem deserialize_conditional_lines_witness :
    ("  Tag: " ++ DataElementTag.toDisplayString ⟨8, 32⟩) ∈
      (JsonDeserializeError.mk "bad value"
        ⟨[DataSetPathEntry.dataElement ⟨8, 32⟩]⟩).to_lines "t" ∧
    ("  Name: " ++ dictionary.tag_name ⟨8, 32⟩ none) ∈
      (JsonDeserializeError.mk "bad value"
        ⟨[DataSetPathEntry.dataElement ⟨8, 32⟩]⟩).to_lines "t" :=
  (deserialize_conditional_lines
    (JsonDeserializeError.mk "bad value"
      ⟨[DataSetPathEntry.dataElement ⟨8, 32⟩]⟩) "t").2.2.2.1 ⟨8, 32⟩ rfl
/-- C5: for a deserialize error with an empty path the report is exactly
the three lines summary, blank, details, with no Tag, Name or Path
lines. -/
theorem deserialize_empty_path_three_lines (e : JsonDeserializeError)
    (t : String) (he : e.path.is_empty = true) :
    e.to_lines t = ["DICOM JSON deserialize error " ++ t, "",
                    "  Details: " ++ e.details] ∧
    (e.to_lines t).length = 3 ∧
    (∀ l ∈ e.to_lines t, ¬ "  Tag: ".data <+: l.data ∧
      ¬ "  Name: ".data <+: l.data ∧ ¬ "  Path: ".data <+: l.data) := by
  have heq := to_lines_err_empty e t _ (empty_final_err e.path he) he
  refine ⟨heq, by rw [heq]; rfl, ?_⟩
  rw [heq]
  rintro l hl
  simp only [List.mem_cons, List.not_mem_nil, or_false] at hl
  rcases hl with rfl | rfl | rfl
  · exact ⟨not_pre_str t (by decide), not_pre_str t (by decide),
      not_pre_str t (by decide)⟩
  · exact ⟨by decide, by decide, by decide⟩
  · exact ⟨not_pre_str e.details (by decide),
      not_pre_str e.details (by decide), not_pre_str e.details (by decide)⟩

/-- C5 witness: the three-line report at the spec's Scenario A input. -/
theorem deserialize_empty_path_three_lines_witness :
    (JsonDeserializeError.mk "expected array, found object" ⟨[]⟩).to_lines
      "while reading DICOM JSON" =
      ["DICOM JSON deserialize error while reading DICOM JSON", "",
       "  Details: expected array, found object"] :=
  (deserialize_empty_path_three_lines
    (JsonDeserializeError.mk "expected array, found object" ⟨[]⟩)
    "while reading DICOM JSON" rfl).1

/-- C7: for the deserialize error and the IOError variant the report is
non-empty and its first line contains the task description verbatim; the
delegating DataError and P10Error variants preserve that convention
whenever the wrapped leaf error satisfies it. -/
theorem to_lines_first_line_contains_task (t : String) :
    (∀ e : JsonDeserializeError, firstLineContains (e.to_lines t) t) ∧
    (∀ io : IOError,
      firstLineContains ((JsonSerializeError.IOError io).to_lines t) t) ∧
    (∀ d : DataError, firstLineContains (d.to_lines t) t →
      firstLineContains ((JsonSerializeError.DataError d).to_lines t) t) ∧
    (∀ p : P10Error, firstLineContains (p.to_lines t) t →
      firstLineContains ((JsonSerializeError.P10Error p).to_lines t) t) := by
  refine ⟨?_, ?_, fun d h => h, fun p h => h⟩
  · intro e
    obtain ⟨rest, hrest⟩ := deserialize_head e t
    rw [hrest]
    refine ⟨by simp, ?_⟩
    simp only [List.headI, String.data_append]
    exact ⟨"DICOM JSON deserialize error ".data, [], by simp⟩
  · intro io
    refine ⟨by simp [JsonSerializeError.to_lines], ?_⟩
    show t.data <:+: ("DICOM JSON I/O error " ++ t).data
    rw [String.data_append]
    exact ⟨"DICOM JSON I/O error ".data, [], by simp⟩

/-- C7 witness: the convention instantiated at a concrete leaf error
whose report is its task description alone. -/
theorem to_lines_first_line_contains_task_witness :
    firstLineContains
      ((JsonSerializeError.DataError ⟨fun s => [s]⟩).to_lines "task")
      "task" :=
  (to_lines_first_line_contains_task "task").2.2.1 ⟨fun s => [s]⟩
    ⟨by simp, ⟨[], [], by simp⟩⟩

/-- C9: whenever the Tag and Name lines appear in a deserialize report
the Path line appears as well, and the report always has exactly 3, 4 or
6 lines, never 5. -/
theorem deserialize_line_count_invariant (e : JsonDeserializeError)
    (t : String) :
    (((∃ l ∈ e.to_lines t, "  Tag: ".data <+: l.data) ∧
      (∃ l ∈ e.to_lines t, "  Name: ".data <+: l.data)) →
      ∃ l ∈ e.to_lines t, "  Path: ".data <+: l.data) ∧
    ((e.to_lines t).length = 3 ∨ (e.to_lines t).length = 4 ∨
      (e.to_lines t).length = 6) ∧
    (e.to_lines t).length ≠ 5 := by
  cases hfd : e.path.final_data_element with
  | ok tag =>
    have he := final_ok_nonempty _ _ hfd
    rw [to_lines_ok_nonempty e t tag hfd he]
    refine ⟨fun _ => ?_, by simp, by simp⟩
    exact ⟨"  Path: " ++ e.path.toDisplayString, by simp, pre_str _ _⟩
  | error err =>
    cases he : e.path.is_empty with
    | true =>
      rw [to_lines_err_empty e t err hfd he]
      refine ⟨?_, by simp, by simp⟩
      rintro ⟨⟨l, hl, hp⟩, -⟩
      simp only [List.mem_cons, List.not_mem_nil, or_false] at hl
      rcases hl with rfl | rfl | rfl
      · exact absurd hp (not_pre_str t (by decide))
      · exact absurd hp (by decide)
      · exact absurd hp (not_pre_str e.details (by decide))
    | false =>
      rw [to_lines_err_nonempty e t err hfd he]
      refine ⟨?_, by simp, by simp⟩
      rintro ⟨⟨l, hl, hp⟩, -⟩
      simp only [List.mem_cons, List.not_mem_nil, or_false] at hl
      rcases hl with rfl | rfl | rfl | rfl
      · exact absurd hp (not_pre_str t (by decide))
      · exact absurd hp (by decide)
      · exact absurd hp (not_pre_str e.details (by decide))
      · exact absurd hp (not_pre_str e.path.toDisplayString (by decide))

/-- C9 witness: the invariant instantiated at a resolving one-element
path, where the Path line indeed accompanies the Tag and Name lines. -/
theorem deserialize_line_count_invariant_witness :
    ∃ l ∈ (JsonDeserializeError.mk "bad"
      ⟨[DataSetPathEntry.dataElement ⟨8, 32⟩]⟩).to_lines "t",
      "  Path: ".data <+: l.data :=
  (deserialize_line_count_invariant
    (JsonDeserializeError.mk "bad"
      ⟨[DataSetPathEntry.dataElement ⟨8, 32⟩]⟩) "t").1
    (by decide)
/-- C2 counterexample: a path consisting of exactly one segment equal to
the data element (0008,0020) resolves via `final_data_element`, yet
`to_lines` produces 6 lines, not 5, and the 6th is a Path line. -/
theorem deserialize_single_segment_counterexample :
    ((⟨[DataSetPathEntry.dataElement ⟨8, 32⟩]⟩ :
        DataSetPath).final_data_element = Except.ok ⟨8, 32⟩) ∧
    (JsonDeserializeError.mk "expected array, found object"
        ⟨[DataSetPathEntry.dataElement ⟨8, 32⟩]⟩).to_lines
        "while reading DICOM JSON" =
      ["DICOM JSON deserialize error while reading DICOM JSON", "",
       "  Details: expected array, found object",
       "  Tag: (0008,0020)",
       "  Name: Study Date",
       "  Path: (0008,0020)"] ∧
    ((JsonDeserializeError.mk "expected array, found object"
        ⟨[DataSetPathEntry.dataElement ⟨8, 32⟩]⟩).to_lines
        "while reading DICOM JSON").length ≠ 5 := by
  refine ⟨rfl, by decide, by decide⟩

/-- C2 amended: whenever the path resolves to a final data element the
path is non-empty, so `to_lines` produces exactly 6 lines, in order:
summary, blank, Details, Tag, Name, Path; this holds for the one-segment
path resolving to (0008,0020) as for any longer resolving path. -/
theorem deserialize_resolving_path_six_lines (e : JsonDeserializeError)
    (t : String) (tag : DataElementTag)
    (hfd : e.path.final_data_element = Except.ok tag) :
    e.to_lines t = ["DICOM JSON deserialize error " ++ t, "",
                    "  Details: " ++ e.details,
                    "  Tag: " ++ tag.toDisplayString,
                    "  Name: " ++ dictionary.tag_name tag none,
                    "  Path: " ++ e.path.toDisplayString] ∧
    (e.to_lines t).length = 6 := by
  have he := final_ok_nonempty _ _ hfd
  have heq := to_lines_ok_nonempty e t tag hfd he
  exact ⟨heq, by rw [heq]; rfl⟩

/-- C2 amended witness: the six-line report at the spec's Scenario B
input. -/
theorem deserialize_resolving_path_six_lines_witness :
    (JsonDeserializeError.mk "expected array, found object"
        ⟨[DataSetPathEntry.dataElement ⟨8, 32⟩]⟩).to_lines
        "while reading DICOM JSON" =
      ["DICOM JSON deserialize error while reading DICOM JSON", "",
       "  Details: expected array, found object",
       "  Tag: (0008,0020)",
       "  Name: Study Date",
       "  Path: (0008,0020)"] :=
  (deserialize_resolving_path_six_lines
    (JsonDeserializeError.mk "expected array, found object"
      ⟨[DataSetPathEntry.dataElement ⟨8, 32⟩]⟩)
    "while reading DICOM JSON" ⟨8, 32⟩ rfl).1
